import Mathlib

/-!
Shallow embedding of the genetic-api HTTP gateway (FastAPI application):
the API-key access gate (`src/app/auth.py`, `src/app/config.py`) and the
LLM inference adapter (`src/app/services/llm_service.py`).

Conventions of the embedding:
* Python strings become Lean `String`; Python `None`-able strings become
  `Option String`.
* Stateful code passes state explicitly: `verify_api_key` returns the
  resulting `Settings` next to its outcome.
* Fallible code returns `Except String` carrying the `str(e)` message of
  the Python exception that the source would raise.
* The upstream HTTP exchange is external I/O: `generate_response` takes the
  upstream reply (status code, raw body text, parsed JSON view of the body)
  as an input, and takes the fresh `str(uuid.uuid4())` value as an input.
-/

namespace GeneticApi

/-! ### Python string primitives -/

/-- Whitespace recognised by Python `str.strip()` (the ASCII whitespace
characters; the source never feeds non-ASCII whitespace to `strip`). -/
def pyIsSpace (c : Char) : Bool :=
  c == ' ' || c == '\t' || c == '\n' || c == '\r' || c == '\x0b' || c == '\x0c'

/-- The list `l` with leading and trailing `pyIsSpace` characters removed. -/
def pyStripList (l : List Char) : List Char :=
  List.rdropWhile pyIsSpace (List.dropWhile pyIsSpace l)

/-- Python `s.strip()`. -/
def pyStrip (s : String) : String :=
  String.mk (pyStripList s.data)

/-- Python `s.endswith(t)`. -/
def pyEndsWith (s t : String) : Bool :=
  t.data.isSuffixOf s.data

/-- Python `s[:-n]` for `n > 0` (used only under an `endswith` guard, so
`n ≤ len(s)` at every call site): the first `len(s) - n` characters. -/
def pyDropRight (s : String) (n : Nat) : String :=
  String.mk (s.data.take (s.data.length - n))

/-- Python `s[:n]` for `n ≥ 0`: the first `n` characters. -/
def pySlice (s : String) (n : Nat) : String :=
  String.mk (s.data.take n)

/-- Python truthiness of an `Optional[str]`: `None` and `""` are falsy. -/
def pyTruthyOptStr : Option String → Bool
  | none => false
  | some s => s ≠ ""

/-- Python `a or b` on an `Optional[str]` scrutinee: `b` when `a` is falsy. -/
def pyOrStr (a : Option String) (b : String) : String :=
  match a with
  | none => b
  | some s => if s = "" then b else s

/-- Splitting a character list at every comma, keeping empty pieces
(the accumulator holds the current piece reversed). -/
def splitCommaAux : List Char → List Char → List (List Char)
  | [], acc => [acc.reverse]
  | c :: rest, acc =>
    if c = ',' then acc.reverse :: splitCommaAux rest [] else splitCommaAux rest (c :: acc)

/-- Python `s.split(",")`: every comma separates, empty pieces are kept,
`"".split(",") = [""]`. -/
def pySplitComma (s : String) : List String :=
  (splitCommaAux s.data []).map String.mk

/-! ### Embedding of `src/app/config.py` — `Settings`

Only the fields read by the embedded code are modelled; the remaining
fields (server host/port, CORS, float-valued generation defaults, the
upstream token) flow solely into external I/O and logging, which no claim
observes. -/

structure Settings where
  hf_endpoint_url : String
  model_name : String
  api_keys : String
  system_prompt : String
  deriving Repr, DecidableEq

/-- Property `Settings.api_keys_list` (config.py lines 50-55): a `@property`, so every
access recomputes a fresh list from the `api_keys` string. -/
def Settings.api_keys_list (s : Settings) : List String :=
  if s.api_keys = "" then []
  else (((pySplitComma s.api_keys).map pyStrip).filter (fun k => k ≠ ""))

/-! ### Embedding of `src/app/auth.py` — `verify_api_key` -/

/-- Outcome of the gate: the returned identity, or the raised
`HTTPException(status_code, detail)`. -/
inductive AuthOutcome where
  | ok (identity : String)
  | error (status : Nat) (detail : String)
  deriving Repr, DecidableEq

/-- Gate `verify_api_key` (auth.py lines 11-41), with the `Settings` state passed
explicitly. Line 24, the `append` of the bypass value onto `api_keys_list`, calls the
property — which builds a fresh list — and appends to that temporary; the
`Settings` object itself has no list-valued field, so the persistent state
is returned unchanged, and lines 26 and 35 each re-read the property fresh. -/
def verify_api_key (s : Settings) (api_key : Option String) : AuthOutcome × Settings :=
  let _keys_with_bypass := s.api_keys_list ++ ["dev-mode"]
  let outcome : AuthOutcome :=
    if s.api_keys_list = [] then
      .ok "dev-mode"
    else if pyTruthyOptStr api_key = false then
      .error 401 "Missing API key. Provide X-API-Key header."
    else if (api_key.getD "") ∉ s.api_keys_list then
      .error 401 "Invalid API key."
    else
      .ok (api_key.getD "")
  (outcome, s)

/-- A sequence of gate calls, threading the `Settings` state through. -/
def run_calls (s : Settings) (vs : List (Option String)) : List AuthOutcome × Settings :=
  match vs with
  | [] => ([], s)
  | v :: rest =>
    let r := verify_api_key s v
    let rs := run_calls r.2 rest
    (r.1 :: rs.1, rs.2)

/-! ### Parsed JSON values

`Json` models the result of `response.json()`: a parsed JSON document as
Python materialises it (`None`, `bool`, numbers, `str`, `list`, `dict`).
JSON numbers are modelled as integers; no claim involves numeric bodies.
An `obj` models a parsed JSON object, so its keys are unique and
`lookupJson` returns the unique binding for a key. -/

inductive Json where
  | null
  | bool (b : Bool)
  | num (n : Int)
  | str (s : String)
  | arr (elems : List Json)
  | obj (fields : List (String × Json))

/-- First binding of `key` in the field list of a parsed object. -/
def lookupJson (key : String) : List (String × Json) → Option Json
  | [] => none
  | kv :: rest => if kv.1 = key then some kv.2 else lookupJson key rest

/-- Python type name of a parsed JSON value, as it appears in error
messages naming the type, e.g. that a list object has no attribute get. -/
def pyTypeName : Json → String
  | .null => "NoneType"
  | .bool _ => "bool"
  | .num _ => "int"
  | .str _ => "str"
  | .arr _ => "list"
  | .obj _ => "dict"

/-- Python truthiness of a parsed JSON value. -/
def pyTruthy : Json → Bool
  | .null => false
  | .bool b => b
  | .num n => n ≠ 0
  | .str s => s ≠ ""
  | .arr l => !l.isEmpty
  | .obj kvs => !kvs.isEmpty

/-- Python `repr` of a `str`, as it appears inside `str()` of a container:
the string in quotes (double quotes when it contains a single quote but no
double quote, single quotes otherwise) with the backslash, the quoting
character and the common control characters escaped. -/
def pyReprStr (s : String) : String :=
  let q : Char := if s.data.contains '\x27' && !s.data.contains '"' then '"' else '\x27'
  let esc : Char → String := fun c =>
    if c = '\\' then "\\\\"
    else if c = q then String.mk ['\\', q]
    else if c = '\n' then "\\n"
    else if c = '\r' then "\\r"
    else if c = '\t' then "\\t"
    else String.mk [c]
  String.mk [q] ++ String.join (s.data.map esc) ++ String.mk [q]

mutual

/-- Python `repr` of a parsed JSON value (used by `str()` on containers and
by f-string interpolation of non-string values). -/
def pyRepr : Json → String
  | .null => "None"
  | .bool true => "True"
  | .bool false => "False"
  | .num n => toString n
  | .str s => pyReprStr s
  | .arr l => "[" ++ pyReprList l ++ "]"
  | .obj kvs => "\x7b" ++ pyReprFields kvs ++ "\x7d"

/-- Comma-separated `repr`s of the elements of a parsed JSON list. -/
def pyReprList : List Json → String
  | [] => ""
  | [x] => pyRepr x
  | x :: y :: rest => pyRepr x ++ ", " ++ pyReprList (y :: rest)

/-- Comma-separated `repr(key): repr(value)` fields of a parsed object. -/
def pyReprFields : List (String × Json) → String
  | [] => ""
  | [kv] => pyReprStr kv.1 ++ ": " ++ pyRepr kv.2
  | kv :: kv2 :: rest => pyReprStr kv.1 ++ ": " ++ pyRepr kv.2 ++ ", " ++ pyReprFields (kv2 :: rest)

end

/-- Python `str()` of a parsed JSON value: the bare text for a string,
`repr`-based rendering otherwise (this is also what f-string interpolation
applies to a non-string value). -/
def pyStr : Json → String
  | .str s => s
  | v => pyRepr v

/-- Python `v.get(key, default)`: the value under `key` of a dict, the
default when the key is absent, and an `AttributeError` (whose `str(e)` is
returned) when `v` is not a dict. -/
def pyGet (v : Json) (key : String) (dflt : Json) : Except String Json :=
  match v with
  | .obj kvs => .ok ((lookupJson key kvs).getD dflt)
  | w => .error ("\x27" ++ pyTypeName w ++ "\x27 object has no attribute \x27get\x27")

/-- Python `v[key]` for a string key: dict lookup raising `KeyError` (whose
`str(e)` is the quoted key) when absent, and a `TypeError` on non-dicts. -/
def pySubscriptStr (v : Json) (key : String) : Except String Json :=
  match v with
  | .obj kvs =>
    match lookupJson key kvs with
    | some w => .ok w
    | none => .error ("\x27" ++ key ++ "\x27")
  | .arr _ => .error "list indices must be integers or slices, not str"
  | .str _ => .error "string indices must be integers"
  | w => .error ("\x27" ++ pyTypeName w ++ "\x27 object is not subscriptable")

/-- Python `v[n]` for a non-negative integer index: list/string indexing
with `IndexError` past the end, `KeyError` on dicts, `TypeError` otherwise. -/
def pySubscriptNat (v : Json) (n : Nat) : Except String Json :=
  match v with
  | .arr l =>
    match l.get? n with
    | some w => .ok w
    | none => .error "list index out of range"
  | .str s =>
    match s.data.get? n with
    | some c => .ok (.str (String.mk [c]))
    | none => .error "string index out of range"
  | .obj _ => .error (toString n)
  | w => .error ("\x27" ++ pyTypeName w ++ "\x27 object is not subscriptable")

/-! ### Embedding of `src/app/services/llm_service.py` — `LLMService` -/

/-- The reply of the single upstream HTTP POST, as `generate_response`
observes it: `status` is `response.status_code`, `text` is the raw body
`response.text`, and `json` is the parsed view `response.json()` (`none`
when the body is not valid JSON, in which case `response.json()` raises). -/
structure UpstreamReply where
  status : Nat
  text : String
  json : Option Json

/-- Flag computed by `LLMService.__init__` line 22: `bool(self.settings.hf_endpoint_url)`. -/
def use_dedicated_endpoint (s : Settings) : Bool :=
  s.hf_endpoint_url ≠ ""

/-- Method `LLMService._format_prompt` (lines 144-154): the Qwen2 chat-format
f-string, a triple-quoted string written on a single source line, so it
contains no newline characters. -/
def format_prompt (s : Settings) (message : String) : String :=
  "<|im_start|>system" ++ s.system_prompt ++ "<|im_end|><|im_start|>user" ++
    message ++ "<|im_end|><|im_start|>assistant"

/-- The end-token vocabulary of `LLMService._clean_response` (line 169), in
loop order. -/
def clean_tokens : List String :=
  ["<|im_end|>", "<|endoftext|>", "</s>"]

/-- One iteration of the `_clean_response` loop body (lines 169-171): if the
current text ends with `token`, drop that trailing occurrence and re-strip. -/
def stripOneToken (r : String) (token : String) : String :=
  if pyEndsWith r token then pyStrip (pyDropRight r token.length) else r

/-- Method `LLMService._clean_response` (lines 156-173): strip whitespace, then
run the loop body once per token of `clean_tokens`, in order. -/
def clean_response (s : String) : String :=
  clean_tokens.foldl stripOneToken (pyStrip s)

/-- Error-message extraction of the non-200 branch (lines 104-110):
`error_msg = response.text or f"HTTP {status}"`, then — when the body
parses as JSON — the ternary on line 108 refines it: a dict-shaped `error`
field contributes its `"message"` value (default: the current `error_msg`),
any other present `error` field contributes its own value, an absent field
keeps `error_msg`; a body whose parse is not a dict makes `.get` raise
`AttributeError`, which the bare `except` on line 109 swallows. A non-string
contributed value is stringified by the f-string on line 112. -/
def error_msg_of (reply : UpstreamReply) : String :=
  let base := if reply.text ≠ "" then reply.text else "HTTP " ++ toString reply.status
  match reply.json with
  | none => base
  | some (.obj kvs) =>
    match lookupJson "error" kvs with
    | some (.obj e) =>
      match lookupJson "message" e with
      | some m => pyStr m
      | none => base
    | some v => pyStr v
    | none => base
  | some _ => base

/-- Response-text extraction by endpoint type (lines 117-126). Dedicated
(TGI) branch: a non-empty list contributes `data[0].get("generated_text", "")`;
anything else contributes `data.get("generated_text", str(data))` — on a
non-dict (including the empty list) `.get` raises `AttributeError`.
Chat-completions branch: the subscript chain
`data["choices"][0]["message"]["content"]`. -/
def extract_text (dedicated : Bool) (data : Json) : Except String Json :=
  if dedicated then
    match data with
    | .arr (x :: _) => pyGet x "generated_text" (.str "")
    | _ => pyGet data "generated_text" (.str (pyStr data))
  else do
    let choices ← pySubscriptStr data "choices"
    let first ← pySubscriptNat choices 0
    let message ← pySubscriptStr first "message"
    pySubscriptStr message "content"

/-- Line 129, `response_text or ""`: the extracted value when truthy, the
empty string otherwise. -/
def pyOrEmptyStr (v : Json) : Json :=
  if pyTruthy v then v else .str ""

/-- The uniform prefix the outer `except Exception` handler (lines 139-142)
puts on every failure message. -/
def failHead : String :=
  "Failed to generate response: "

/-- Method `LLMService.generate_response` (lines 32-142) after the upstream POST
has been issued: `reply` is the observed upstream reply and `uuid4` the
value `str(uuid.uuid4())` that line 58 would slice when the caller supplied
no (or an empty) conversation id. The payload construction (lines 69-91)
feeds only the outbound request, which is external I/O, and is omitted.
Every raised exception is re-raised by the outer handler with `failHead`
prepended; the result is `Except` over the surfaced message. -/
def generate_response (s : Settings) (message : String)
    (conversation_id : Option String) (uuid4 : String)
    (reply : UpstreamReply) : Except String (String × String) :=
  let _prompt := format_prompt s message
  let conv_id := pyOrStr conversation_id (pySlice uuid4 8)
  if reply.status ≠ 200 then
    .error (failHead ++ "HuggingFace API error (" ++ toString reply.status ++
      "): " ++ error_msg_of reply)
  else
    match reply.json with
    | none =>
      -- `response.json()` raises on an unparseable body; the message is the
      -- decode error of the JSON library, modelled as a fixed diagnostic.
      .error (failHead ++ "upstream body is not valid JSON")
    | some data =>
      match extract_text (use_dedicated_endpoint s) data with
      | .error e => .error (failHead ++ e)
      | .ok v =>
        match pyOrEmptyStr v with
        | .str t =>
          let cleaned := clean_response t
          if cleaned = "" then
            .error (failHead ++ "Model returned empty response.")
          else
            .ok (cleaned, conv_id)
        | w =>
          -- a truthy non-string `generated_text`/content value makes
          -- `.strip()` inside `_clean_response` raise `AttributeError`
          .error (failHead ++ "\x27" ++ pyTypeName w ++
            "\x27 object has no attribute \x27strip\x27")

/-! ### Spec-side definitions (written from the words of the spec, for
comparison against the embedded code) -/

/-- The start-of-turn delimiter of the fixed chat markup. -/
def imStartDelim : String := "<|im_start|>"

/-- The end-of-turn delimiter of the fixed chat markup. -/
def imEndDelim : String := "<|im_end|>"

/-- The prompt template exactly as the spec decomposes it: start-system
marker, system prompt, end-turn marker, start-user marker, user message,
end-turn marker, start-assistant marker. -/
def spec_prompt_template (system_prompt message : String) : String :=
  imStartDelim ++ "system" ++ system_prompt ++ imEndDelim ++
    imStartDelim ++ "user" ++ message ++ imEndDelim ++
    imStartDelim ++ "assistant"

/-- The error-message derivation exactly as claim C5 words it: the
`message` field when the `error` field of the body is an object with a message,
the `error` field itself when it is a flat string, FALLING BACK TO THE RAW
BODY TEXT in every other case, and finally to the HTTP status code alone
when the body is empty. -/
def claim_error_msg (reply : UpstreamReply) : String :=
  let fallback := if reply.text ≠ "" then reply.text
    else "HTTP " ++ toString reply.status
  match reply.json with
  | some (.obj kvs) =>
    match lookupJson "error" kvs with
    | some (.obj e) =>
      match lookupJson "message" e with
      | some m => pyStr m
      | none => fallback
    | some (.str msg) => msg
    | _ => fallback
  | _ => fallback

/-- The error-message derivation as amended: a present `error` field that
is neither an object-with-message nor a string contributes its own
STRINGIFIED value (instead of falling back to the body text); the other
clauses are as in the claim. -/
def amended_error_msg (reply : UpstreamReply) : String :=
  let fallback := if reply.text ≠ "" then reply.text
    else "HTTP " ++ toString reply.status
  match reply.json with
  | some (.obj kvs) =>
    match lookupJson "error" kvs with
    | some (.obj e) =>
      match lookupJson "message" e with
      | some m => pyStr m
      | none => fallback
    | some v => pyStr v
    | none => fallback
  | _ => fallback

/-- Whether `t` occurs as a contiguous sublist of `l`. -/
def containsSub : List Char → List Char → Bool
  | l, t =>
    if List.isPrefixOf t l then true
    else
      match l with
      | [] => false
      | _ :: rest => containsSub rest t

/-- Python `t in s` on strings: substring containment. -/
def pyContains (s t : String) : Bool :=
  containsSub s.data t.data

/-! ### Concrete fixtures used by witnesses and counterexamples -/

/-- A chat-completions configuration (no dedicated endpoint URL). -/
def cfgChat : Settings := ⟨"", "model-m", "k1", "sys"⟩

/-- A dedicated-endpoint configuration. -/
def cfgDed : Settings := ⟨"https://endpoint", "model-m", "k1", "sys"⟩

/-- A fixed `str(uuid.uuid4())` value (36 characters). -/
def uuidC : String := "123e4567-e89b-12d3-a456-426614174000"

/-- A successful chat-completions reply whose content carries a trailing
end-of-turn marker. -/
def replyHappyC : UpstreamReply :=
  ⟨200, "", some (.obj [("choices", .arr [.obj [("message",
    .obj [("content", .str "CRISPR-Cas9 is a gene-editing tool.<|im_end|>")])]])])⟩

/-- A non-success reply with the conventional nested error body
`\x7b"error": \x7b"message": "rate limited"\x7d\x7d`. -/
def replyRateLimitedC : UpstreamReply :=
  ⟨500, "\x7b\"error\": \x7b\"message\": \"rate limited\"\x7d\x7d",
    some (.obj [("error", .obj [("message", .str "rate limited")])])⟩

/-- A non-success reply whose `error` field is JSON `null`. -/
def replyNullErrorC : UpstreamReply :=
  ⟨500, "\x7b\"error\": null\x7d", some (.obj [("error", .null)])⟩

/-- An HTTP-200 reply whose body is the empty JSON object `\x7b\x7d`. -/
def replyEmptyObjC : UpstreamReply :=
  ⟨200, "\x7b\x7d", some (.obj [])⟩

/-- An HTTP-200 chat-completions reply with `null` content at
`choices[0].message.content`. -/
def replyNullContentC : UpstreamReply :=
  ⟨200, "\x7b\"choices\": [\x7b\"message\": \x7b\"content\": null\x7d\x7d]\x7d",
    some (.obj [("choices", .arr [.obj [("message",
      .obj [("content", .null)])]])])⟩

/-- An HTTP-200 dedicated-generation reply whose generated text is
whitespace and a marker only. -/
def replyBlankTextC : UpstreamReply :=
  ⟨200, "[\x7b\"generated_text\": \"  <|im_end|>  \"\x7d]",
    some (.arr [.obj [("generated_text", .str "  <|im_end|>  ")]])⟩

/-- An HTTP-200 dedicated-generation reply that is a one-element list whose
element lacks the `generated_text` field. -/
def replyListNoFieldC : UpstreamReply :=
  ⟨200, "[\x7b\x7d]", some (.arr [.obj []])⟩

/-! ## Theorems -/

/-- Every member of the configured Credential Set is a non-empty token:
`api_keys_list` filters out pieces that strip to the empty string. -/
theorem mem_api_keys_list_ne_empty {s : Settings} {c : String}
    (h : c ∈ s.api_keys_list) : c ≠ "" := by
  unfold Settings.api_keys_list at h
  split at h
  · simp at h
  · have := List.of_mem_filter h
    simpa using this

/-- The gate accepts exactly when the Credential Set is empty or the
presented value is a member. -/
theorem verify_api_key_accepts_iff (s : Settings) (v : Option String) :
    (∃ id, (verify_api_key s v).1 = .ok id) ↔
      (s.api_keys_list = [] ∨ ∃ c, v = some c ∧ c ∈ s.api_keys_list) := by
  simp only [verify_api_key]
  by_cases hS : s.api_keys_list = []
  · simp [hS]
  · simp only [hS, if_false]
    by_cases ht : pyTruthyOptStr v = false
    · simp only [ht, if_true]
      constructor
      · rintro ⟨id, h⟩; exact absurd h (by simp)
      · rintro (h | ⟨c, hv, hc⟩)
        · exact h.elim
        · subst hv
          have hc' : c ≠ "" := mem_api_keys_list_ne_empty hc
          simp [pyTruthyOptStr, hc'] at ht
    · simp only [ht, if_false]
      by_cases hm : (v.getD "") ∉ s.api_keys_list
      · simp only [hm, if_true]
        constructor
        · rintro ⟨id, h⟩; exact absurd h (by simp)
        · rintro (h | ⟨c, hv, hc⟩)
          · exact h.elim
          · subst hv; exact absurd hc hm
      · simp only [hm, if_false]
        push_neg at hm
        refine ⟨fun _ => Or.inr ?_, fun _ => ⟨v.getD "", rfl⟩⟩
        cases v with
        | none => simp [pyTruthyOptStr] at ht
        | some c => exact ⟨c, rfl, hm⟩

/-- C1 (amended): the gate accepts iff the Credential Set is empty or the
presented value is a member; an empty set yields the fixed identity
`"dev-mode"`, a member is returned as the identity; an absent — or, by the
truthiness presence test, an empty-string — credential is rejected as
missing, and a present NON-EMPTY non-member is rejected as invalid. -/
theorem verify_api_key_classification (s : Settings) (v : Option String) :
    (s.api_keys_list = [] → (verify_api_key s v).1 = .ok "dev-mode") ∧
    (s.api_keys_list ≠ [] → (v = none ∨ v = some "") →
      (verify_api_key s v).1 =
        .error 401 "Missing API key. Provide X-API-Key header.") ∧
    (∀ c, v = some c → c ≠ "" → c ∉ s.api_keys_list → s.api_keys_list ≠ [] →
      (verify_api_key s v).1 = .error 401 "Invalid API key.") ∧
    (∀ c, v = some c → c ∈ s.api_keys_list → (verify_api_key s v).1 = .ok c) ∧
    ((∃ id, (verify_api_key s v).1 = .ok id) ↔
      (s.api_keys_list = [] ∨ ∃ c, v = some c ∧ c ∈ s.api_keys_list)) := by
  refine ⟨?_, ?_, ?_, ?_, verify_api_key_accepts_iff s v⟩
  · intro hS
    simp [verify_api_key, hS]
  · rintro hS (rfl | rfl) <;> simp [verify_api_key, hS, pyTruthyOptStr]
  · rintro c rfl hc hmem hS
    simp [verify_api_key, hS, hmem, pyTruthyOptStr, hc]
  · rintro c rfl hmem
    have hS : s.api_keys_list ≠ [] := List.ne_nil_of_mem hmem
    have hc : c ≠ "" := mem_api_keys_list_ne_empty hmem
    simp [verify_api_key, hS, hmem, pyTruthyOptStr, hc]

/-- Witness for C1: with configured keys `"k1,k2"`, presenting `"k1"` is
accepted with identity `"k1"`. -/
theorem verify_api_key_classification_witness :
    (verify_api_key ⟨"", "m", "k1,k2", "p"⟩ (some "k1")).1 = .ok "k1" :=
  (verify_api_key_classification ⟨"", "m", "k1,k2", "p"⟩ (some "k1")).2.2.2.1
    "k1" rfl (by decide)

/-- Counterexample to C1 as stated: with configured keys `"k1"`, the
presented empty-string credential is present (`some ""`, not `none`) and
not a member of the non-empty Credential Set, yet the gate rejects it as a
MISSING credential, not as an invalid one. -/
theorem verify_api_key_empty_string_cex :
    some "" ≠ (none : Option String) ∧
    "" ∉ (Settings.mk "" "m" "k1" "p").api_keys_list ∧
    (Settings.mk "" "m" "k1" "p").api_keys_list ≠ [] ∧
    (verify_api_key (Settings.mk "" "m" "k1" "p") (some "")).1 =
      .error 401 "Missing API key. Provide X-API-Key header." ∧
    (verify_api_key (Settings.mk "" "m" "k1" "p") (some "")).1 ≠
      .error 401 "Invalid API key." := by
  decide

/-- C2: the gate is stateless — a call returns the `Settings` unchanged,
and over any sequence of calls the final state equals the initial one while
the outcome of every call equals the outcome of a fresh call on the initial
state (the line-24 `append` mutates only the fresh temporary list built by
the `api_keys_list` property). -/
theorem verify_api_key_stateless (s : Settings) (vs : List (Option String)) :
    (∀ v, (verify_api_key s v).2 = s) ∧
    (run_calls s vs).2 = s ∧
    (run_calls s vs).1 = vs.map (fun v => (verify_api_key s v).1) := by
  refine ⟨fun _ => rfl, ?_⟩
  induction vs with
  | nil => exact ⟨rfl, rfl⟩
  | cons v rest ih =>
    refine ⟨ih.1, ?_⟩
    simp only [run_calls, List.map_cons]
    exact congrArg _ ih.2

/-- Left-stripping a left-stripped list is still a fixed point after the
right strip: the right strip keeps a prefix, so the head (which fails the
predicate) is preserved or everything vanishes. -/
theorem dropWhile_rdropWhile_eq_self {p : Char → Bool} {m : List Char}
    (h : List.dropWhile p m = m) :
    List.dropWhile p (List.rdropWhile p m) = List.rdropWhile p m := by
  rw [List.dropWhile_eq_self_iff] at h ⊢
  intro h0
  have hpre : List.rdropWhile p m <+: m := List.rdropWhile_prefix p m
  simp only [List.get_eq_getElem] at h ⊢
  rw [hpre.getElem h0]
  exact h (lt_of_lt_of_le h0 hpre.length_le)

/-- Python `strip` is idempotent at the character-list level. -/
theorem pyStripList_idem (l : List Char) :
    pyStripList (pyStripList l) = pyStripList l := by
  unfold pyStripList
  rw [dropWhile_rdropWhile_eq_self (List.dropWhile_idempotent pyIsSpace l)]
  exact List.rdropWhile_idempotent pyIsSpace (List.dropWhile pyIsSpace l)

/-- Python `strip` is idempotent. -/
theorem pyStrip_idem (s : String) : pyStrip (pyStrip s) = pyStrip s :=
  congrArg String.mk (pyStripList_idem s.data)

/-- One `_clean_response` loop iteration maps stripped strings to stripped
strings. -/
theorem pyStrip_stripOneToken (x t : String) (hx : pyStrip x = x) :
    pyStrip (stripOneToken x t) = stripOneToken x t := by
  unfold stripOneToken
  split
  · exact pyStrip_idem _
  · exact hx

/-- The whole `_clean_response` loop maps stripped strings to stripped
strings. -/
theorem pyStrip_foldl_stripOneToken (ts : List String) (x : String)
    (hx : pyStrip x = x) :
    pyStrip (List.foldl stripOneToken x ts) = List.foldl stripOneToken x ts := by
  induction ts generalizing x with
  | nil => exact hx
  | cons t ts ih => exact ih _ (pyStrip_stripOneToken x t hx)

/-- The output of `_clean_response` carries no leading or trailing
whitespace. -/
theorem pyStrip_clean_response (s : String) :
    pyStrip (clean_response s) = clean_response s :=
  pyStrip_foldl_stripOneToken clean_tokens (pyStrip s) (pyStrip_idem s)

/-- C3 (amended): the trailing-marker cleanup is idempotent on every input
whose cleaned form retains no trailing marker; the single in-order pass
removes at most one trailing occurrence of each marker, so it is not
idempotent on inputs whose cleaned form still ends in a marker. -/
theorem clean_response_idem_of_no_trailing_marker (s : String)
    (h : ∀ t ∈ clean_tokens, pyEndsWith (clean_response s) t = false) :
    clean_response (clean_response s) = clean_response s := by
  have h1 := h "<|im_end|>" (by simp [clean_tokens])
  have h2 := h "<|endoftext|>" (by simp [clean_tokens])
  have h3 := h "</s>" (by simp [clean_tokens])
  show List.foldl stripOneToken (pyStrip (clean_response s)) clean_tokens =
    clean_response s
  rw [pyStrip_clean_response]
  simp [clean_tokens, stripOneToken, h1, h2, h3]

/-- Witness for C3: `"  hello<|im_end|>  "` cleans to `"hello"`, which has
no trailing marker, and a second cleanup leaves it unchanged. -/
theorem clean_response_idem_witness :
    clean_response "  hello<|im_end|>  " = "hello" ∧
    clean_response (clean_response "  hello<|im_end|>  ") =
      clean_response "  hello<|im_end|>  " :=
  ⟨by decide, clean_response_idem_of_no_trailing_marker "  hello<|im_end|>  "
    (by decide)⟩

/-- Counterexample to C3 as stated: stacked trailing markers survive one
pass — `"x<|im_end|><|im_end|>"` cleans to `"x<|im_end|>"`, and cleaning
again yields `"x"`, so cleaning twice differs from cleaning once. -/
theorem clean_response_not_idempotent_cex :
    clean_response "x<|im_end|><|im_end|>" = "x<|im_end|>" ∧
    clean_response (clean_response "x<|im_end|><|im_end|>") = "x" ∧
    clean_response (clean_response "x<|im_end|><|im_end|>") ≠
      clean_response "x<|im_end|><|im_end|>" := by
  decide

/-- C7: in dedicated-generation mode the constructed prompt is exactly the
fixed markup template — start-system marker, system prompt, end-turn
marker, start-user marker, user message, end-turn marker, start-assistant
marker over the delimiters `<|im_start|>`/`<|im_end|>` — byte for byte,
for every (system prompt, message) pair. -/
theorem format_prompt_matches_template (s : Settings) (message : String) :
    format_prompt s message = spec_prompt_template s.system_prompt message := by
  apply String.ext
  simp only [format_prompt, spec_prompt_template, imStartDelim, imEndDelim,
    String.data_append]
  simp [List.append_assoc]

/-- On every successful run the returned conversation id is the Python
`conversation_id or str(uuid.uuid4())[:8]` resolution (shared helper for
the conversation-id claims). -/
theorem generate_ok_conv (s : Settings) (message : String)
    (cid : Option String) (uuid4 : String) (reply : UpstreamReply)
    (text conv : String)
    (h : generate_response s message cid uuid4 reply = .ok (text, conv)) :
    conv = pyOrStr cid (pySlice uuid4 8) := by
  simp only [generate_response] at h
  split at h
  · simp at h
  · split at h
    · simp at h
    · split at h
      · simp at h
      · split at h
        · split at h
          · simp at h
          · simp only [Except.ok.injEq, Prod.mk.injEq] at h
            exact h.2.symm
        · simp at h

/-- C8 (amended): a successful call echoes a caller-supplied NON-EMPTY
conversation id verbatim; with no caller-supplied id the returned id is
the first 8 characters of the fresh uuid4 string, hence of length 8. -/
theorem generate_response_conv_id_resolution (s : Settings)
    (message uuid4 : String) (reply : UpstreamReply)
    (hu : uuid4.length = 36) :
    (∀ c text conv, c ≠ "" →
      generate_response s message (some c) uuid4 reply = .ok (text, conv) →
      conv = c) ∧
    (∀ text conv,
      generate_response s message none uuid4 reply = .ok (text, conv) →
      conv = pySlice uuid4 8 ∧ conv.length = 8) := by
  constructor
  · intro c text conv hc h
    simpa [pyOrStr, hc] using generate_ok_conv s message (some c) uuid4 reply text conv h
  · intro text conv h
    have hconv : conv = pySlice uuid4 8 := by
      simpa [pyOrStr] using generate_ok_conv s message none uuid4 reply text conv h
    refine ⟨hconv, ?_⟩
    rw [hconv]
    show (uuid4.data.take 8).length = 8
    rw [List.length_take]
    have hu' : uuid4.data.length = 36 := hu
    omega

/-- Witness for C8: on the successful chat reply with no caller-supplied
id, the returned id is the 8-character uuid4 slice. -/
theorem generate_response_conv_id_resolution_witness :
    "123e4567" = pySlice uuidC 8 ∧ ("123e4567" : String).length = 8 :=
  (generate_response_conv_id_resolution cfgChat "hi" uuidC replyHappyC
    (by decide)).2 "CRISPR-Cas9 is a gene-editing tool." "123e4567" rfl

/-- Counterexample to C8 as stated: the caller-supplied EMPTY conversation
id is not echoed back — the call succeeds with the freshly sliced
`"123e4567"`, which differs from the supplied `""`. -/
theorem generate_response_conv_id_cex :
    generate_response cfgChat "hi" (some "") uuidC replyHappyC =
      .ok ("CRISPR-Cas9 is a gene-editing tool.", "123e4567") ∧
    ("123e4567" : String) ≠ "" :=
  ⟨rfl, by decide⟩

/-- C9: a caller-supplied empty-string conversation id is treated as
absent by the truthiness test: a successful call returns the 8-character
uuid4 slice, not the empty string, and behaves exactly as a call with no
id at all. -/
theorem generate_response_empty_conv_treated_absent (s : Settings)
    (message uuid4 : String) (reply : UpstreamReply) (text conv : String)
    (hu : uuid4.length = 36)
    (h : generate_response s message (some "") uuid4 reply = .ok (text, conv)) :
    conv = pySlice uuid4 8 ∧ conv.length = 8 ∧ conv ≠ "" ∧
    generate_response s message (some "") uuid4 reply =
      generate_response s message none uuid4 reply := by
  have hconv : conv = pySlice uuid4 8 := by
    simpa [pyOrStr] using generate_ok_conv s message (some "") uuid4 reply text conv h
  have hlen : conv.length = 8 := by
    rw [hconv]
    show (uuid4.data.take 8).length = 8
    rw [List.length_take]
    have hu' : uuid4.data.length = 36 := hu
    omega
  exact ⟨hconv, hlen, fun he => absurd (he ▸ hlen) (by decide), rfl⟩

/-- Witness for C9: the concrete successful chat run with supplied id `""`
returns `"123e4567"` and coincides with the run with no id. -/
theorem generate_response_empty_conv_witness :
    "123e4567" = pySlice uuidC 8 ∧ ("123e4567" : String).length = 8 ∧
    ("123e4567" : String) ≠ "" ∧
    generate_response cfgChat "hi" (some "") uuidC replyHappyC =
      generate_response cfgChat "hi" none uuidC replyHappyC :=
  generate_response_empty_conv_treated_absent cfgChat "hi" uuidC replyHappyC
    "CRISPR-Cas9 is a gene-editing tool." "123e4567" (by decide) rfl

/-- The embedded non-200 error-message extraction agrees with the amended
spec-side derivation everywhere. -/
theorem error_msg_of_eq_amended (reply : UpstreamReply) :
    error_msg_of reply = amended_error_msg reply := by
  obtain ⟨st, tx, js⟩ := reply
  unfold error_msg_of amended_error_msg
  cases js with
  | none => rfl
  | some j =>
    cases j with
    | obj kvs =>
      cases hv : lookupJson "error" kvs with
      | none => rfl
      | some v => cases v <;> rfl
    | null => rfl
    | bool b => rfl
    | num n => rfl
    | str s => rfl
    | arr l => rfl

/-- C5 (amended): every non-success reply fails with the wrapped
`HuggingFace API error (<status>): <msg>` message, where `<msg>` is the
amended derivation: the `message` field of an object-shaped `error` field,
the `error` field itself when it is a flat string, the stringified value of
any other present `error` field, the raw body text otherwise, and the HTTP
status code alone when the body is empty. -/
theorem generate_response_non200 (s : Settings) (message : String)
    (cid : Option String) (uuid4 : String) (reply : UpstreamReply)
    (h : reply.status ≠ 200) :
    generate_response s message cid uuid4 reply =
      .error (failHead ++ "HuggingFace API error (" ++ toString reply.status ++
        "): " ++ amended_error_msg reply) := by
  simp only [generate_response, if_pos h]
  rw [error_msg_of_eq_amended]

/-- Witness for C5: the 500 reply with body
`\x7b"error": \x7b"message": "rate limited"\x7d\x7d` fails with a message
containing `"rate limited"`. -/
theorem generate_response_non200_witness :
    generate_response cfgChat "hi" none uuidC replyRateLimitedC =
      .error "Failed to generate response: HuggingFace API error (500): rate limited" ∧
    pyContains
      "Failed to generate response: HuggingFace API error (500): rate limited"
      "rate limited" = true :=
  ⟨(generate_response_non200 cfgChat "hi" none uuidC replyRateLimitedC
      (by decide)).trans rfl,
    by decide⟩

/-- Counterexample to C5 as stated: for the 500 reply with body
`\x7b"error": null\x7d` the code stringifies the null (`"None"`), while the
derivation of the claim falls back to the raw body text — the two messages
differ. -/
theorem generate_response_non200_cex :
    generate_response cfgChat "hi" none uuidC replyNullErrorC =
      .error "Failed to generate response: HuggingFace API error (500): None" ∧
    claim_error_msg replyNullErrorC = "\x7b\"error\": null\x7d" ∧
    "Failed to generate response: HuggingFace API error (500): None" ≠
      failHead ++ "HuggingFace API error (500): " ++
        claim_error_msg replyNullErrorC :=
  ⟨rfl, rfl, by decide⟩

/-- C6: an HTTP-200 reply whose extracted text is empty or whitespace-only
after trimming and trailing-marker stripping makes `generate` fail with the
empty-response error instead of returning an empty response. -/
theorem generate_response_empty_text_fails (s : Settings) (message : String)
    (cid : Option String) (uuid4 : String) (reply : UpstreamReply)
    (d v : Json) (t : String)
    (hstatus : reply.status = 200)
    (hjson : reply.json = some d)
    (hex : extract_text (use_dedicated_endpoint s) d = .ok v)
    (hor : pyOrEmptyStr v = .str t)
    (hclean : clean_response t = "") :
    generate_response s message cid uuid4 reply =
      .error (failHead ++ "Model returned empty response.") := by
  simp [generate_response, hstatus, hjson, hex, hor, hclean]

/-- Witness for C6: a dedicated-generation 200 reply whose generated text
is whitespace and a marker only fails with the empty-response error. -/
theorem generate_response_empty_text_witness :
    generate_response cfgDed "hi" none uuidC replyBlankTextC =
      .error (failHead ++ "Model returned empty response.") :=
  generate_response_empty_text_fails cfgDed "hi" none uuidC replyBlankTextC
    (.arr [.obj [("generated_text", .str "  <|im_end|>  ")]])
    (.str "  <|im_end|>  ") "  <|im_end|>  " rfl rfl rfl rfl (by decide)

/-- C4 (amended): in dedicated mode, a 200 reply that is a non-empty list
whose first element is an object lacking `generated_text` extracts the
empty string and fails with the empty-response error; a single-OBJECT reply
lacking the field instead falls back to the stringified body and succeeds
(see the counterexample). -/
theorem generate_dedicated_missing_field_fails (s : Settings) (message : String)
    (cid : Option String) (uuid4 : String) (reply : UpstreamReply)
    (kvs : List (String × Json)) (rest : List Json)
    (hmode : use_dedicated_endpoint s = true)
    (hstatus : reply.status = 200)
    (hjson : reply.json = some (.arr (.obj kvs :: rest)))
    (hmiss : lookupJson "generated_text" kvs = none) :
    generate_response s message cid uuid4 reply =
      .error (failHead ++ "Model returned empty response.") := by
  have hex : extract_text (use_dedicated_endpoint s) (.arr (.obj kvs :: rest)) =
      .ok (.str "") := by
    simp [extract_text, hmode, pyGet, hmiss]
  simp [generate_response, hstatus, hjson, hex, pyOrEmptyStr, pyTruthy,
    (by decide : clean_response "" = "")]

/-- Witness for C4: the one-element-list reply `[\x7b\x7d]` fails with the
empty-response error in dedicated mode. -/
theorem generate_dedicated_missing_field_witness :
    generate_response cfgDed "hi" none uuidC replyListNoFieldC =
      .error (failHead ++ "Model returned empty response.") :=
  generate_dedicated_missing_field_fails cfgDed "hi" none uuidC
    replyListNoFieldC [] [] rfl rfl rfl rfl

/-- Counterexample to C4 as stated: in dedicated mode the 200 reply whose
body is the single object `\x7b\x7d` — which carries no `generated_text`
field — does NOT fail: the extraction falls back to `str(data)`, the
non-empty `"\x7b\x7d"`, and `generate` returns it as a success. -/
theorem generate_dedicated_object_no_field_cex :
    lookupJson "generated_text" [] = none ∧
    generate_response cfgDed "hi" none uuidC replyEmptyObjC =
      .ok ("\x7b\x7d", "123e4567") ∧
    (generate_response cfgDed "hi" none uuidC replyEmptyObjC).isOk = true :=
  ⟨rfl, rfl, rfl⟩

/-- C10: in chat-completions mode, a 200 reply with JSON `null` content at
`choices[0].message.content` neither crashes nor returns null text — the
null coerces to the empty string, so the call fails with the
empty-response error. -/
theorem generate_response_null_content_fails (s : Settings) (message : String)
    (cid : Option String) (uuid4 : String) (reply : UpstreamReply)
    (kvs mkvs ckvs : List (String × Json)) (rest : List Json)
    (hmode : use_dedicated_endpoint s = false)
    (hstatus : reply.status = 200)
    (hjson : reply.json = some (.obj kvs))
    (hch : lookupJson "choices" kvs = some (.arr (.obj mkvs :: rest)))
    (hmsg : lookupJson "message" mkvs = some (.obj ckvs))
    (hcontent : lookupJson "content" ckvs = some .null) :
    generate_response s message cid uuid4 reply =
      .error (failHead ++ "Model returned empty response.") := by
  have hex : extract_text (use_dedicated_endpoint s) (.obj kvs) = .ok .null := by
    simp [extract_text, hmode, pySubscriptStr, pySubscriptNat, hch, hmsg,
      hcontent, bind, Except.bind, List.getElem?_cons_zero]
  simp [generate_response, hstatus, hjson, hex, pyOrEmptyStr, pyTruthy,
    (by decide : clean_response "" = "")]

/-- Witness for C10: the concrete null-content chat reply fails with the
empty-response error. -/
theorem generate_response_null_content_witness :
    generate_response cfgChat "hi" none uuidC replyNullContentC =
      .error (failHead ++ "Model returned empty response.") :=
  generate_response_null_content_fails cfgChat "hi" none uuidC
    replyNullContentC [("choices", .arr [.obj [("message",
      .obj [("content", .null)])]])] [("message", .obj [("content", .null)])]
    [("content", .null)] [] rfl rfl rfl rfl rfl rfl

end GeneticApi
